import Mathlib

/-!
Verification development for the rtpmidid core: a shallow embedding of the
MIDI wire codec (`rtpmidid.cpp`: `recv_rtpmidi_event`,
`alsamidi_to_midiprotocol`), the client bookkeeping
(`add_rtpmidi_client` and its subscribe/unsubscribe callbacks), the mDNS
announcement records (`announce_rtpmidid_server`), the control socket
(`control_socket.cpp`: `parse_command`, `data_ready`), and the clock-sync
schedule of `rtpclient_t`.  Machine bytes are modelled as `Nat` with an
explicit `% 256` wherever the C code reads a `uint8_t`; signed C `int`
arithmetic is modelled on `Int`.
-/

/-- Typed sequencer events produced by the decoder `recv_rtpmidi_event`
(one constructor per `snd_seq_ev_set_*` call it makes). -/
inductive MidiEvent where
  | noteOn (ch note vel : Nat)
  | noteOff (ch note vel : Nat)
  | controlChange (ch param value : Nat)
  | programChange (ch value : Nat)
  | channelPressure (ch value : Nat)
  | pitchBend (ch : Nat) (value : Int)
deriving DecidableEq, Repr

/-- The loop body of `rtpmidid::recv_rtpmidi_event`.  `current` is
`current_command` (initially 0); a byte with the high bit set replaces it,
otherwise the byte is pushed back and consumed as the first data byte
(running status).  The switch on `current & 0xF0` is rendered
arithmetically: for a byte `current < 256`, `current & 0xF0` is
`current / 16 * 16` and `current & 0x0F` is `current % 16`.  The source has
no `break` between the `case 0xD0` and `case 0xE0` arms, so a channel
pressure command reads its one data byte and then falls through into the
pitch-bend arm, which reads two further bytes and overwrites the event.
Reading past the end of the buffer (`parse_buffer_t::read_uint8` with no
bytes left) is `none`; the `default` arm logs a warning and returns,
keeping the events already delivered.  `fuel` only bounds the recursion;
every iteration consumes at least one byte, so `length + 1` is enough. -/
def recvLoop : Nat → Nat → List Nat → Option (List MidiEvent)
  | 0, _, _ => none
  | _ + 1, _, [] => some []
  | fuel + 1, current₀, b₀ :: rest =>
    let b := b₀ % 256
    let current := if 128 ≤ b then b else current₀
    let data := if 128 ≤ b then rest else b :: rest
    let ty := current / 16
    let ch := current % 16
    if ty = 0xB then
      match data with
      | d1 :: d2 :: tail =>
        (MidiEvent.controlChange ch (d1 % 256) (d2 % 256) :: ·) <$>
          recvLoop fuel current tail
      | _ => none
    else if ty = 0x9 then
      match data with
      | d1 :: d2 :: tail =>
        (MidiEvent.noteOn ch (d1 % 256) (d2 % 256) :: ·) <$>
          recvLoop fuel current tail
      | _ => none
    else if ty = 0x8 then
      match data with
      | d1 :: d2 :: tail =>
        (MidiEvent.noteOff ch (d1 % 256) (d2 % 256) :: ·) <$>
          recvLoop fuel current tail
      | _ => none
    else if ty = 0xC then
      match data with
      | d1 :: tail =>
        (MidiEvent.programChange ch (d1 % 256) :: ·) <$>
          recvLoop fuel current tail
      | _ => none
    else if ty = 0xD then
      -- missing `break`: the channel-pressure value is read, then the 0xE0
      -- arm runs, reading two more bytes; the emitted event is the pitch bend
      match data with
      | _d1 :: lsb :: msb :: tail =>
        (MidiEvent.pitchBend ch ((msb % 256 * 128 + lsb % 256 : Nat) - 8192) :: ·) <$>
          recvLoop fuel current tail
      | _ => none
    else if ty = 0xE then
      match data with
      | lsb :: msb :: tail =>
        (MidiEvent.pitchBend ch ((msb % 256 * 128 + lsb % 256 : Nat) - 8192) :: ·) <$>
          recvLoop fuel current tail
      | _ => none
    else some []

/-- `rtpmidid::recv_rtpmidi_event`: decode a MIDI command stream into the
sequence of typed events it emits (in emission order).  `current_command`
starts at 0. -/
def recv_rtpmidi_event (bytes : List Nat) : Option (List MidiEvent) :=
  recvLoop (bytes.length + 1) 0 bytes

/-- The `snd_seq_event_t` shapes consumed by
`rtpmidid::alsamidi_to_midiprotocol`, one constructor per `case` label
(`SND_SEQ_EVENT_NOTE` shares the `NOTEON` body in the source and here).
`channel`, `note`, `velocity` and `param` are `unsigned char`/`unsigned int`
fields (bytes in range in the sequencer); `value` is a signed C `int`. -/
inductive SndSeqEvent where
  | note (channel note velocity : Nat)
  | noteon (channel note velocity : Nat)
  | noteoff (channel note velocity : Nat)
  | controller (channel param : Nat) (value : Int)
  | pgmchange (channel : Nat) (value : Int)
  | chanpress (channel : Nat) (value : Int)
  | pitchbend (channel : Nat) (value : Int)
  | other
deriving DecidableEq, Repr

/-- `rtpmidid::alsamidi_to_midiprotocol`: the bytes written to the stream.
`0x90 | (ch & 0x0F)` is rendered `0x90 + ch % 16` (the low nibble is
disjoint from the status bits); `pgmchange`/`chanpress` apply no channel
mask in the source, so they use a genuine `|||`.  `value & 0x0FF` on a
signed int is the nonnegative remainder `(value % 256).toNat` (two's
complement mask); the pitch-bend arithmetic `(value + 8192) & 0x07F` and
`(value + 8192) >> 7 & 0x07F` is mask and arithmetic shift, i.e. `% 128`
and floor division `/ 128` on `Int`.  The `default` arm writes nothing and
returns (`none`). -/
def alsamidi_to_midiprotocol : SndSeqEvent → Option (List Nat)
  | .note ch n v | .noteon ch n v =>
    if v = 0 then some [0x80 + ch % 16, n, v]
    else some [0x90 + ch % 16, n, v]
  | .noteoff ch n v => some [0x80 + ch % 16, n, v]
  | .controller ch p value => some [0xB0 + ch % 16, p, (value % 256).toNat]
  | .pgmchange ch value => some [0xC0 ||| ch, (value % 256).toNat]
  | .chanpress ch value => some [0xD0 ||| ch, (value % 256).toNat]
  | .pitchbend ch value =>
    some [0xE0 + ch % 16, ((value + 8192) % 128).toNat,
          ((value + 8192) / 128 % 128).toNat]
  | .other => none

/-- C1 (code_bug evidence): a Channel Pressure command `D0 0A` followed by
the two bytes `14 1E` does not decode to `ChannelPressure(0, 10)` consuming
one data byte; because the `case 0xD0` arm lacks a `break`, the code falls
into the pitch-bend arm, consumes the two following bytes as well, and
emits `PitchBend(0, 0x1E * 128 + 0x14 - 8192) = PitchBend(0, -4332)`.
With exactly one data byte (`D0 0A`) the fall-through reads past the end
of the buffer. -/
theorem chanpress_fallthrough :
    recv_rtpmidi_event [0xD0, 0x0A, 0x14, 0x1E] =
      some [MidiEvent.pitchBend 0 (-4332)] ∧
    recv_rtpmidi_event [0xD0, 0x0A] = none := by decide

/-- C2 (counterexample): the wire NoteOn command `90 3C 00` (channel 0,
note 60, velocity 0) decodes as the NoteOn event with velocity 0, not as a
NoteOff event: the decoder's 0x90 arm calls `snd_seq_ev_set_noteon`
unconditionally, without inspecting the velocity. -/
theorem noteon_vel0_decode_cex :
    recv_rtpmidi_event [0x90, 60, 0] = some [MidiEvent.noteOn 0 60 0] ∧
    recv_rtpmidi_event [0x90, 60, 0] ≠ some [MidiEvent.noteOff 0 60 0] := by
  decide

/-- C2 (amended): for every channel and note byte, the wire NoteOn command
with velocity 0 decodes as a NoteOn event with velocity 0 (the
velocity-0-to-NoteOff conversion lives only in the encoder direction,
`alsamidi_to_midiprotocol`). -/
theorem noteon_vel0_decodes_as_noteon (ch note : Nat) (hch : ch < 16)
    (hnote : note < 256) :
    recv_rtpmidi_event [0x90 + ch, note, 0] =
      some [MidiEvent.noteOn ch note 0] := by
  have hb : (0x90 + ch) % 256 = 0x90 + ch := Nat.mod_eq_of_lt (by omega)
  have h128 : 128 ≤ 0x90 + ch := by omega
  have hty : (0x90 + ch) / 16 = 9 := by omega
  have hch' : (0x90 + ch) % 16 = ch := by omega
  simp [recv_rtpmidi_event, recvLoop, hb, h128, hty, hch',
    Nat.mod_eq_of_lt hnote]

/-- C2 amended, witnessed at channel 3, note 60. -/
theorem noteon_vel0_decodes_as_noteon_witness :
    recv_rtpmidi_event [0x90 + 3, 60, 0] = some [MidiEvent.noteOn 3 60 0] :=
  noteon_vel0_decodes_as_noteon 3 60 (by decide) (by decide)

/-- C3: for every channel and every pitch-bend value in [-8192, 8191],
`alsamidi_to_midiprotocol` writes `(value + 8192)` as LSB then MSB 7-bit
bytes after the `0xE0 | ch` status byte, and `recv_rtpmidi_event` on those
three bytes yields the same pitch bend back. -/
theorem pitchbend_roundtrip (ch : Nat) (v : Int) (hch : ch < 16)
    (hlo : -8192 ≤ v) (hhi : v ≤ 8191) :
    alsamidi_to_midiprotocol (SndSeqEvent.pitchbend ch v) =
      some [0xE0 + ch, (v + 8192).toNat % 128, (v + 8192).toNat / 128] ∧
    recv_rtpmidi_event
        [0xE0 + ch, (v + 8192).toNat % 128, (v + 8192).toNat / 128] =
      some [MidiEvent.pitchBend ch v] := by
  have hn : (v + 8192).toNat < 16384 := by omega
  constructor
  · simp only [alsamidi_to_midiprotocol, Nat.mod_eq_of_lt hch]
    have h1 : ((v + 8192) % 128).toNat = (v + 8192).toNat % 128 := by omega
    have h2 : ((v + 8192) / 128 % 128).toNat = (v + 8192).toNat / 128 := by
      omega
    rw [h1, h2]
  · have hb : (0xE0 + ch) % 256 = 0xE0 + ch := Nat.mod_eq_of_lt (by omega)
    have h128 : 128 ≤ 0xE0 + ch := by omega
    have hty : (0xE0 + ch) / 16 = 14 := by omega
    have hch' : (0xE0 + ch) % 16 = ch := by omega
    simp [recv_rtpmidi_event, recvLoop, hb, h128, hty, hch']
    omega

/-- C3, witnessed at channel 2, value -100. -/
theorem pitchbend_roundtrip_witness :
    alsamidi_to_midiprotocol (SndSeqEvent.pitchbend 2 (-100)) =
      some [0xE0 + 2, ((-100 : Int) + 8192).toNat % 128,
            ((-100 : Int) + 8192).toNat / 128] ∧
    recv_rtpmidi_event
        [0xE0 + 2, ((-100 : Int) + 8192).toNat % 128,
         ((-100 : Int) + 8192).toNat / 128] =
      some [MidiEvent.pitchBend 2 (-100)] :=
  pitchbend_roundtrip 2 (-100) (by decide) (by decide) (by decide)

/-- C10: a sequencer NoteOn with velocity 0 is encoded with the NoteOff
status byte `0x80 | ch` followed by the note and velocity 0; a NoteOn with
nonzero velocity gets the `0x90 | ch` status byte; and a velocity-0 NoteOn
encodes to exactly the bytes of a NoteOff of the same note and channel
(with velocity 0). -/
theorem noteon_velocity0_encoding (ch note vel : Nat) (hch : ch < 16)
    (hvel : vel ≠ 0) :
    alsamidi_to_midiprotocol (SndSeqEvent.noteon ch note 0) =
      some [0x80 + ch, note, 0] ∧
    alsamidi_to_midiprotocol (SndSeqEvent.noteon ch note vel) =
      some [0x90 + ch, note, vel] ∧
    alsamidi_to_midiprotocol (SndSeqEvent.noteon ch note 0) =
      alsamidi_to_midiprotocol (SndSeqEvent.noteoff ch note 0) := by
  refine ⟨?_, ?_, ?_⟩ <;>
    simp [alsamidi_to_midiprotocol, Nat.mod_eq_of_lt hch, hvel]

/-- C10, witnessed at channel 1, note 60, velocity 100. -/
theorem noteon_velocity0_encoding_witness :
    alsamidi_to_midiprotocol (SndSeqEvent.noteon 1 60 0) =
      some [0x80 + 1, 60, 0] ∧
    alsamidi_to_midiprotocol (SndSeqEvent.noteon 1 60 100) =
      some [0x90 + 1, 60, 100] ∧
    alsamidi_to_midiprotocol (SndSeqEvent.noteon 1 60 0) =
      alsamidi_to_midiprotocol (SndSeqEvent.noteoff 1 60 0) :=
  noteon_velocity0_encoding 1 60 100 (by decide) (by decide)

/-- The `client_info` record stored in `rtpmidid::known_clients`, with the
`shared_ptr<rtpclient> peer` reduced to whether it is non-null. -/
structure ClientInfo where
  name : String
  address : String
  port : Nat
  use_count : Int
  peer : Bool
deriving DecidableEq, Repr

/-- The initializer `{name, address, net_port, 0, nullptr}` used by
`add_rtpmidi_client`. -/
def initial_client_info (name address : String) (net_port : Nat) : ClientInfo :=
  { name := name, address := address, port := net_port,
    use_count := 0, peer := false }

/-- The `seq.on_subscribe` callback registered by `add_rtpmidi_client`: the
rtpclient is created, and `use_count` incremented, only when the peer
pointer is null; when a peer already exists nothing changes. -/
def client_on_subscribe (ci : ClientInfo) : ClientInfo :=
  if ci.peer then ci
  else { ci with peer := true, use_count := ci.use_count + 1 }

/-- The `seq.on_unsubscribe` callback registered by `add_rtpmidi_client`:
`use_count` is decremented, and when it drops to `<= 0` the peer pointer is
reset to null (tearing the RTP session down). -/
def client_on_unsubscribe (ci : ClientInfo) : ClientInfo :=
  let ci2 := { ci with use_count := ci.use_count - 1 }
  if ci2.use_count ≤ 0 then { ci2 with peer := false } else ci2

/-- C6 (code_bug evidence): two subscribe events followed by a single
unsubscribe (one fewer unsubscribes than subscribes) already destroy the
rtpclient peer: `use_count` is incremented only inside the
`if (!peer_info->peer)` branch, so the second subscribe leaves it at 1 and
the first unsubscribe drops it to 0. -/
theorem subscribe_twice_unsubscribe_once_disconnects :
    (client_on_unsubscribe (client_on_subscribe (client_on_subscribe
        (initial_client_info "peer" "192.168.1.2" 5004)))).peer = false := by
  rfl

/-- The pair of state touched by `rtpmidid::add_rtpmidi_client`: the next
ALSA port id `seq.create_port` would hand out, and the `known_clients`
map as an association list in insertion order. -/
structure RtpmididState where
  next_aseq_port : Nat
  known_clients : List (Nat × ClientInfo)
deriving DecidableEq, Repr

/-- `rtpmidid::add_rtpmidi_client`: scan `known_clients` for an entry with
the same address and port; if found return `nullopt` without touching
anything, otherwise create an ALSA port, insert a fresh `client_info`, and
return the new port.  (The subscribe/unsubscribe/midi callbacks it
registers are `client_on_subscribe` and `client_on_unsubscribe` above.) -/
def add_rtpmidi_client (st : RtpmididState) (name address : String)
    (net_port : Nat) : Option Nat × RtpmididState :=
  if st.known_clients.any
      (fun kc => kc.2.address == address && kc.2.port == net_port) then
    (none, st)
  else
    (some st.next_aseq_port,
     { next_aseq_port := st.next_aseq_port + 1,
       known_clients := st.known_clients ++
         [(st.next_aseq_port, initial_client_info name address net_port)] })

/-- C8: when a known client with identical (address, port) already exists,
`add_rtpmidi_client` returns no port and leaves the known-clients map and
the sequencer port allocation unchanged; otherwise a fresh peer entry is
appended under a newly created sequencer port. -/
theorem add_rtpmidi_client_dedup (st : RtpmididState) (name address : String)
    (net_port : Nat) :
    (st.known_clients.any
        (fun kc => kc.2.address == address && kc.2.port == net_port) = true →
      add_rtpmidi_client st name address net_port = (none, st)) ∧
    (st.known_clients.any
        (fun kc => kc.2.address == address && kc.2.port == net_port) = false →
      add_rtpmidi_client st name address net_port =
        (some st.next_aseq_port,
         { next_aseq_port := st.next_aseq_port + 1,
           known_clients := st.known_clients ++
             [(st.next_aseq_port,
               initial_client_info name address net_port)] })) := by
  constructor <;> intro h <;> simp [add_rtpmidi_client, h]

/-- C8, witnessed: a second announcement of 192.168.1.7:5004 is ignored,
and a first announcement of a fresh address is added. -/
theorem add_rtpmidi_client_dedup_witness :
    add_rtpmidi_client
        ⟨1, [(0, initial_client_info "a" "192.168.1.7" 5004)]⟩
        "b" "192.168.1.7" 5004 =
      (none, ⟨1, [(0, initial_client_info "a" "192.168.1.7" 5004)]⟩) ∧
    add_rtpmidi_client ⟨1, []⟩ "b" "192.168.1.9" 5004 =
      (some 1, ⟨2, [(1, initial_client_info "b" "192.168.1.9" 5004)]⟩) :=
  ⟨(add_rtpmidi_client_dedup
      ⟨1, [(0, initial_client_info "a" "192.168.1.7" 5004)]⟩
      "b" "192.168.1.7" 5004).1 (by decide),
   (add_rtpmidi_client_dedup ⟨1, []⟩ "b" "192.168.1.9" 5004).2 (by decide)⟩

/-- The mDNS PTR record built by `announce_rtpmidid_server`. -/
structure ServicePtr where
  label : String
  ttl : Nat
  servicename : String
deriving DecidableEq, Repr

/-- The mDNS SRV record built by `announce_rtpmidid_server`. -/
structure ServiceSrv where
  label : String
  ttl : Nat
  hostname : String
  port : Nat
deriving DecidableEq, Repr

/-- `TIMEOUT_REANNOUNCE`, the TTL recommended by RFC 6762. -/
def TIMEOUT_REANNOUNCE : Nat := 75 * 60

/-- `rtpmidid::announce_rtpmidid_server`: the PTR and SRV records it
announces.  The SRV hostname is the constant string the source assigns
(marked `FIXME!!!` there), not a name obtained from the responder. -/
def announce_rtpmidid_server (name : String) (port : Nat) :
    ServicePtr × ServiceSrv :=
  ({ label := "_apple-midi._udp.local", ttl := TIMEOUT_REANNOUNCE,
     servicename := name ++ "._apple-midi._udp.local" },
   { label := name ++ "._apple-midi._udp.local", ttl := TIMEOUT_REANNOUNCE,
     hostname := "ucube.local", port := port })

/-- C9 (code_bug evidence): for every announced server, the SRV record
hostname is the hardcoded constant "ucube.local", independent of the name
of the host the daemon runs on; nothing is queried from the mDNS
responder. -/
theorem announce_srv_hostname_hardcoded (name : String) (port : Nat) :
    (announce_rtpmidid_server name port).2.hostname = "ucube.local" := rfl

/-- Modelled from the spec: the clock-sync schedule of `rtpclient_t`
(`connected` / `send_ck0_with_timeout`, whose implementation file is not
among the sources; only the declaration of the driving counter survives,
with its comment "A simple state machine. We need to send 6 CK one after
another, and then every 10 secs").  Following that comment and the data
model sentence "at least six successful exchanges are required before a
connection is considered stable; thereafter, one exchange per 10 seconds":
`timerstate` counts completed CK exchanges, and `ck_delay_after` gives the
delay in seconds before the next CK0 is sent. -/
def ck_delay_after (timerstate : Nat) : Nat :=
  if timerstate < 6 then 0 else 10

/-- Modelled from the spec: the connection status side of the CK state
machine — the peer reports connected once the first CK round-trip
completes ("status → connected after the first CK round-trip"). -/
structure CkState where
  timerstate : Nat
  connected : Bool
deriving DecidableEq, Repr

/-- Modelled from the spec: the state right after the data-channel OK,
before any CK exchange. -/
def ck_initial : CkState := { timerstate := 0, connected := false }

/-- Modelled from the spec: completing one CK round-trip increments the
exchange counter and marks the connection established. -/
def on_ck_response (s : CkState) : CkState :=
  { timerstate := s.timerstate + 1, connected := true }

/-- C7 (counterexample): after three completed CK exchanges the next CK0
is still sent back-to-back (delay 0), not on the 10-second schedule, so
the client does not emit exactly three CK0 exchanges back-to-back. -/
theorem ck_three_not_enough :
    ck_delay_after 3 = 0 ∧ ck_delay_after 3 ≠ 10 := by decide

/-- C7 (amended): after the data-channel OK the client emits six CK0
exchanges back-to-back (delay 0 while fewer than six have completed),
reports connected after the first CK round-trip, and thereafter emits one
CK0 every 10 seconds. -/
theorem ck_schedule (n : Nat) :
    (n < 6 → ck_delay_after n = 0) ∧ (6 ≤ n → ck_delay_after n = 10) ∧
    (on_ck_response ck_initial).connected = true := by
  refine ⟨fun h => ?_, fun h => ?_, rfl⟩ <;> simp [ck_delay_after] <;> omega

/-- C7 amended, witnessed after three and after six exchanges. -/
theorem ck_schedule_witness :
    ck_delay_after 3 = 0 ∧ ck_delay_after 6 = 10 ∧
    (on_ck_response ck_initial).connected = true :=
  ⟨(ck_schedule 3).1 (by decide), (ck_schedule 6).2.1 (by decide),
   (ck_schedule 0).2.2⟩

/-- nlohmann-style JSON values, as handled by `control_socket.cpp`. -/
inductive JsonValue where
  | null
  | bool (b : Bool)
  | str (s : String)
  | num (n : Int)
  | arr (elems : List JsonValue)
  | obj (fields : List (String × JsonValue))

/-- The C++ exceptions that can be thrown while handling a control line:
`json_t::parse` failures, json type errors (wrong-type access or
conversion), `std::stoi` on a non-number, and whatever a command handler
throws. -/
inductive CtrlExn where
  | parse_error
  | type_error
  | invalid_argument
  | runtime (msg : String)

/-- `json_t::parse(command)`: the input line is given already classified —
`none` when the text is not valid JSON (then `parse` throws), otherwise
the parsed value. -/
def json_parse : Option JsonValue → Except CtrlExn JsonValue
  | none => .error .parse_error
  | some v => .ok v

/-- `js[key]` on a mutable json object: a missing key reads as `null`, a
`null` json silently converts to an object, and any other json type throws
a type error. -/
def jsonGetKey : JsonValue → String → Except CtrlExn JsonValue
  | .obj fields, key =>
    match fields.lookup key with
    | some v => .ok v
    | none => .ok .null
  | .null, _ => .ok .null
  | _, _ => .error .type_error

/-- Assigning a json value to a `std::string`: throws unless it is a
string. -/
def jsonToString : JsonValue → Except CtrlExn String
  | .str s => .ok s
  | _ => .error .type_error

/-- Assigning a json value to an integer (`peer_id_t`): throws unless it
is a number. -/
def jsonToInt : JsonValue → Except CtrlExn Int
  | .num n => .ok n
  | _ => .error .type_error

/-- `params[i]` on a json array; anything else throws a type error. -/
def jsonArrayGet : JsonValue → Nat → Except CtrlExn JsonValue
  | .arr elems, i =>
    match elems.get? i with
    | some v => .ok v
    | none => .error .type_error
  | _, _ => .error .type_error

/-- `res.contains(key)`. -/
def jsonContains : JsonValue → String → Bool
  | .obj fields, key => (fields.lookup key).isSome
  | _, _ => false

/-- `res[key]` where `contains` was already checked (read-only access). -/
def jsonGetKeyD (v : JsonValue) (key : String) : JsonValue :=
  match jsonGetKey v key with
  | .ok x => x
  | .error _ => .null

/-- `e.what()` for the modelled exceptions, as the json string stored into
the reply's error member by the catch block. -/
def exnMessage : CtrlExn → JsonValue
  | .parse_error => .str "json parse error"
  | .type_error => .str "json type error"
  | .invalid_argument => .str "stoi invalid argument"
  | .runtime msg => .str msg

/-- The body of the `connect` entry of the `commands` vector: the
array-size switch / object-field extraction, the error text on a shape
mismatch, and `json_t{"ok"}` on success.  The router mutation
(`add_peer(make_local_alsa_listener ...)`) has no effect on the reply and
is not modelled. -/
def connect_command (params : JsonValue) : Except CtrlExn JsonValue :=
  match params with
  | .arr [a] => do
    let _name ← jsonToString a
    .ok (.arr [.str "ok"])
  | .arr [a, b] => do
    let _name ← jsonToString a
    let _port ← jsonToString b
    .ok (.arr [.str "ok"])
  | .arr [a, b, _c] => do
    let _name ← jsonToString a
    let _hostname ← jsonToString b
    .ok (.arr [.str "ok"])
  | .arr _ => .ok (.arr [.str "error", .str "Need 1, 2 or 3 params or a dict"])
  | .obj fields => do
    let name ← jsonToString (jsonGetKeyD (.obj fields) "name")
    let hostname ← jsonToString (jsonGetKeyD (.obj fields) "hostname")
    if name.isEmpty || hostname.isEmpty then
      .ok (.arr [.str "error", .str "Need 1, 2 or 3 params or a dict"])
    else
      .ok (.arr [.str "ok"])
  | _ => .ok (.arr [.str "error", .str "Need 1, 2 or 3 params or a dict"])

/-- The `commands` vector of `control_socket.cpp` (name and handler), with
each handler modelled down to its json accesses — the thrown exceptions
and the produced reply value; the router calls themselves return no data
used by the reply.  `status` reports the version/settings/router report as
an opaque object. -/
def commands : List (String × (JsonValue → Except CtrlExn JsonValue)) :=
  [("status", fun _ => .ok (.obj [("version", .str "rtpmidid")])),
   ("router.remove", fun params => do
     let p0 ← jsonArrayGet params 0
     let _peer_id ← jsonToInt p0
     .ok (.str "ok")),
   ("router.connect", fun params => do
     let f ← jsonGetKey params "from"
     let _from_peer_id ← jsonToInt f
     let t ← jsonGetKey params "to"
     let _to_peer_id ← jsonToInt t
     .ok (.str "ok")),
   ("connect", connect_command),
   ("help", fun _ => .ok (.arr []))]

/-- The regex `^(\d*)\.(.*)` under `std::regex_match`: a (possibly empty)
run of digits, a literal dot, and the rest of the method name. -/
def peer_command_match (method : String) : Option (String × String) :=
  let digits := method.takeWhile Char.isDigit
  let rest := method.drop digits.length
  if rest.startsWith "." then some (digits, rest.drop 1) else none

/-- `std::stoi`: throws `invalid_argument` when the text has no leading
digits (here the regex guarantees all-digits, so only the empty string
throws; overflow is not modelled). -/
def stoi (s : String) : Except CtrlExn Int :=
  match s.toNat? with
  | some n => .ok n
  | none => .error .invalid_argument

/-- `control_socket_t::parse_command`.  `router` models
`router->get_peer_by_id` followed by `peer->command`: for an existing
peer id it gives the peer's command handler, else `none`.  The input line
is `none` when it is not valid JSON.  The reply json object is returned
in field order id, then result or error; `json_t::dump` is elided.
Crucially, `json_t::parse(command)` and the conversion of `js["method"]`
to a `std::string` happen BEFORE the try block, so their exceptions
propagate to the caller (`Except.error`); everything inside the try is
turned into an error reply by the catch. -/
def parse_command (router : Int → Option (String → JsonValue → JsonValue))
    (line : Option JsonValue) : Except CtrlExn JsonValue := do
  let js ← json_parse line
  let method ← jsonGetKey js "method" >>= jsonToString
  let idv ← jsonGetKey js "id"
  let retdata := [("id", idv)]
  let body : Except CtrlExn JsonValue := do
    let params ← jsonGetKey js "params"
    match commands.lookup method with
    | some func => do
      let res ← func params
      .ok (.obj (retdata ++ [("result", res)]))
    | none =>
      match peer_command_match method with
      | some (digits, cmd) => do
        let peer_id ← stoi digits
        match router peer_id with
        | some peer_command => do
          let res := peer_command cmd params
          if jsonContains res "error" then
            .ok (.obj (retdata ++ [("error", jsonGetKeyD res "error")]))
          else
            .ok (.obj (retdata ++ [("result", res)]))
        | none =>
          .ok (.obj (retdata ++
            [("error", .str ("Unknown peer " ++ toString peer_id))]))
      | none =>
        .ok (.obj (retdata ++ [("error", .str ("Unknown method " ++ method))]))
  match body with
  | .ok r => .ok r
  | .error e => .ok (.obj (retdata ++ [("error", exnMessage e)]))

/-- C4 (code_bug evidence): on an input line that is not valid JSON, the
`json_t::parse` exception escapes `parse_command` (it is raised before the
try block); no JSON reply is produced.  Likewise a valid-JSON line whose
method member is not a string escapes with a type error. -/
theorem parse_command_invalid_json_escapes :
    parse_command (fun _ => none) none = Except.error CtrlExn.parse_error ∧
    parse_command (fun _ => none) (some (JsonValue.obj [])) =
      Except.error CtrlExn.type_error := ⟨rfl, rfl⟩

/-- The actions `control_socket_t::data_ready` performs on sockets and on
the poller. -/
inductive SockAction where
  | stop_listener (fd : Nat)
  | close_fd (fd : Nat)
  | write_msg (fd : Nat) (msg : String)
  | write_reply (fd : Nat) (reply : JsonValue)
  | fsync_fd (fd : Nat)

/-- The `MSG_TOO_LONG` line of `control_socket.cpp`. -/
def MSG_TOO_LONG : String :=
  "\x7b\"event\": \"close\", \"detail\": \"Message too long\", \"code\": 1\x7d\n"

/-- `control_socket_t::data_ready`, one invocation.  `clients` is the fd
list of open control connections; `l` is the value `recv` returned as
stored into the `size_t` the code uses (so an error return of -1 would
appear as 2^64-1, and `l <= 0` can only mean `l = 0`); `write_ok` says
whether the `write` call succeeds; `line` is the received text as parsed
JSON, used on the normal path (`none` when not valid JSON); `router` as in
`parse_command`.  Returns the surviving client list and the performed
actions — or, since nothing in `data_ready` catches, the exception
escaping out of `parse_command`. -/
def data_ready (router : Int → Option (String → JsonValue → JsonValue))
    (clients : List Nat) (fd : Nat) (l : Nat) (write_ok : Bool)
    (line : Option JsonValue) :
    Except CtrlExn (List Nat × List SockAction) :=
  if l = 0 then
    .ok (clients.filter (fun c => c ≠ fd),
         [.stop_listener fd, .close_fd fd])
  else if 1023 ≤ l then
    if write_ok then .ok (clients, [.write_msg fd MSG_TOO_LONG])
    else .ok (clients, [.write_msg fd MSG_TOO_LONG, .close_fd fd])
  else do
    let ret ← parse_command router line
    if write_ok then .ok (clients, [.write_reply fd ret, .fsync_fd fd])
    else .ok (clients, [.write_reply fd ret, .close_fd fd])

/-- C5 (code_bug evidence): a client (fd 7) whose single read fills the
1024-byte buffer is sent the "Message too long" close event, but its
connection is not closed: `data_ready` merely returns, the fd stays open
and registered in the client list (it is closed only if the write itself
fails). -/
theorem data_ready_oversize_keeps_client :
    data_ready (fun _ => none) [7] 7 1024 true none =
      Except.ok ([7], [SockAction.write_msg 7 MSG_TOO_LONG]) := rfl
